import Mathlib

/-!
Verification of the repository-acquisition subsystem of the docugen
repository: `utils/git_operations.py` and `utils/crawl_github_files.py`,
shallowly embedded in Lean 4.  Network and filesystem effects are made
explicit: each transport attempt's outcome is an input (an environment
script), and filesystem states are tracked explicitly where a claim is
about them.
-/

namespace DocuGen

/-! ## String helpers (Python `str` operations used by the source) -/

/-- Model of Python `s.startswith(pre)` restricted to character lists:
`listStarts pre l` holds when `pre` is a prefix of `l`. -/
def listStarts : List Char → List Char → Bool
  | [], _ => true
  | _ :: _, [] => false
  | a :: as, b :: bs => a == b && listStarts as bs

/-- Python `s.startswith(pre)`. -/
def strStarts (s pre : String) : Bool :=
  listStarts pre.toList s.toList

/-- `listHasSub needle hay` models Python `needle in hay` on character
lists: `needle` occurs contiguously inside `hay`. -/
def listHasSub : List Char → List Char → Bool
  | needle, [] => listStarts needle []
  | needle, h :: t => listStarts needle (h :: t) || listHasSub needle t

/-- Python `needle in hay` for strings. -/
def strHasSub (hay needle : String) : Bool :=
  listHasSub needle.toList hay.toList

/-- Python `s.lower()` (ASCII is all the source ever feeds it). -/
def strToLower (s : String) : String :=
  String.mk (s.toList.map Char.toLower)

/-- Python `s[n:]`. -/
def strDropChars (s : String) (n : Nat) : String :=
  String.mk (s.toList.drop n)

/-- Python `s.lstrip('/')`. -/
def strLstripSlash (s : String) : String :=
  String.mk (s.toList.dropWhile (fun c => c == '/'))

/-- Python `"/".join(parts)`. -/
def joinSlash : List String → String
  | [] => ""
  | [x] => x
  | x :: y :: xs => x ++ "/" ++ joinSlash (y :: xs)

/-! ## URL model

`urlparse(repo_url)` splits a URL into scheme, authority (netloc) and
path.  The source uses only `netloc` (lower-cased, as `hostname`) and the
raw URL string, so a URL is modelled by those components and `urlString`
re-renders the raw string the components came from. -/

structure Url where
  scheme : String
  host : String
  path : String
deriving DecidableEq

/-- The raw URL string (`repo_url` in the source). -/
def urlString (u : Url) : String :=
  u.scheme ++ "://" ++ u.host ++ u.path

/-- `git_operations.py` line 55: `hostname = parsed_url.netloc.lower()`. -/
def hostnameOf (u : Url) : String :=
  strToLower u.host

/-- `git_operations.py` line 56:
`is_github_enterprise = 'github' in hostname and hostname != 'github.com'`. -/
def isGithubEnterprise (hostname : String) : Bool :=
  strHasSub hostname "github" && hostname != "github.com"

/-! ## Acquisition orchestrator (`clone_repository`, `git_operations.py`
lines 53-99)

The two transports `_clone_with_git` and `_download_with_github_api` are
effectful; their outcomes for this acquisition are supplied as an
environment: `none` means the transport succeeds, `some e` means it fails
with error message `e`.  The token and target-directory arguments do not
influence the routing logic modelled here. -/

structure TransportEnv where
  gitResult : Option String
  apiResult : Option String
deriving DecidableEq

inductive CloneOutcome where
  /-- some transport returned the workspace path -/
  | success
  /-- line 99: `raise git_error` alone -/
  | errGitOnly (git : String)
  /-- line 75: "Both API and Git clone failed. API: .., Git: .." -/
  | errBothApiFirst (api git : String)
  /-- line 94: "Both Git clone and API download failed. Git: .., API: .." -/
  | errBothGitFirst (git api : String)
deriving DecidableEq

/-- `clone_repository` routing (`git_operations.py` lines 53-99): for an
enterprise host try the API download first and fall back to git clone; for
any other host try git clone first and fall back to the API download when
`"github.com" in repo_url` (a substring test on the whole URL string,
line 85); otherwise re-raise the git error alone. -/
def clone_repository (u : Url) (env : TransportEnv) : CloneOutcome :=
  let hostname := hostnameOf u
  if isGithubEnterprise hostname then
    match env.apiResult with
    | none => .success
    | some apiErr =>
      match env.gitResult with
      | none => .success
      | some gitErr => .errBothApiFirst apiErr gitErr
  else
    match env.gitResult with
    | none => .success
    | some gitErr =>
      if strHasSub (urlString u) "github.com" then
        match env.apiResult with
        | none => .success
        | some apiErr => .errBothGitFirst gitErr apiErr
      else
        .errGitOnly gitErr

/-! ## Branch selection for the tree-marker clone
(`crawl_github_files.py` line 149) -/

/-- `crawl_github_files.py` line 149:
`clone_branch = branch if branch != "main" else ref`. -/
def clone_branch (branch ref : String) : String :=
  if branch != "main" then branch else ref

/-! ## Glob filter (`should_include_file`, `crawl_github_files.py`
lines 48-63)

`fnmatch.fnmatch` is standard-library code, not part of this repository;
it is abstracted as the matcher argument `fn name pattern`.  `globMatch`
below is a concrete matcher covering the `*`/`?`/literal glob subset the
repository's own patterns use, for instantiating theorems. -/

/-- `should_include_file(file_path, file_name)` with the enclosing
function's `include_patterns`/`exclude_patterns` made explicit (empty
list models Python `None`/empty set, both falsy).  Include patterns are
tested against the base name, exclude patterns against the relative
path, exactly as in the source (lines 55 and 60). -/
def should_include_file (fn : String → String → Bool)
    (includePatterns excludePatterns : List String)
    (filePath fileName : String) : Bool :=
  let include_file :=
    if includePatterns.isEmpty then true
    else includePatterns.any (fun p => fn fileName p)
  if !excludePatterns.isEmpty && include_file then
    let exclude_file := excludePatterns.any (fun p => fn filePath p)
    !exclude_file
  else
    include_file

/-- Concrete glob matcher on character lists: `*` matches any run,
`?` any single character, other characters literally. -/
def globMatchChars : List Char → List Char → Bool
  | [], [] => true
  | [], _ :: _ => false
  | '*' :: ps, [] => globMatchChars ps []
  | '*' :: ps, c :: cs =>
      globMatchChars ps (c :: cs) || globMatchChars ('*' :: ps) cs
  | '?' :: _, [] => false
  | '?' :: ps, _ :: cs => globMatchChars ps cs
  | _ :: _, [] => false
  | p :: ps, c :: cs => p == c && globMatchChars ps cs
termination_by ps cs => (ps.length, cs.length)

/-- Concrete matcher in `fnmatch` argument order: name, then pattern. -/
def globMatch (name pattern : String) : Bool :=
  globMatchChars pattern.toList name.toList

/-! ## Reference resolution for tree-marker URLs
(`crawl_github_files.py` lines 65-143)

`path_parts = parsed_url.path.strip('/').split('/')`; the branch list
returned by `fetch_branches` (a network call) and the tree-existence
check `check_tree` are supplied as inputs. -/

inductive ResolveOutcome where
  /-- line 70: `raise ValueError` when fewer than two path segments -/
  | malformedUrl
  /-- line 225: no `tree` marker, the caller branch is used directly -/
  | noTreeMarker
  /-- lines 118-119: empty branch list, `return` (None) immediately -/
  | abortBranchListEmpty
  /-- lines 134-137: neither a branch prefix nor an existing tree -/
  | abortNoMatch
  /-- line 130: `path_parts[3]` raises when no fourth segment exists -/
  | indexErr
  /-- lines 140-143: ref and subdirectory resolved -/
  | resolved (ref subdir : String)
deriving DecidableEq

/-- Lines 140-143: `subdir = relevant_path[len(ref):].lstrip('/')` when
`relevant_path.startswith(ref)`, else `""`. -/
def subdirOf (relevant_path ref : String) : String :=
  if strStarts relevant_path ref then
    strLstripSlash (strDropChars relevant_path ref.length)
  else ""

/-- The ref/subpath resolution of `crawl_github_files` (lines 65-143):
on a `tree`-marker URL, if the fetched branch list is empty the crawl
returns immediately; otherwise the first branch name (in list order) that
is a string prefix of the joined remainder path becomes `ref`; failing
that, the single next segment is tried as a tree object. -/
def resolveTreeUrl (pathParts branches : List String)
    (treeExists : String → Bool) : ResolveOutcome :=
  match pathParts with
  | _ :: _ :: "tree" :: rest =>
    if branches.length == 0 then .abortBranchListEmpty
    else
      let relevant_path := joinSlash rest
      match branches.find? (fun name => strStarts relevant_path name) with
      | some ref => .resolved ref (subdirOf relevant_path ref)
      | none =>
        match rest with
        | [] => .indexErr
        | tree :: _ =>
          if treeExists tree then .resolved tree (subdirOf relevant_path tree)
          else .abortNoMatch
  | _ :: _ :: _ => .noTreeMarker
  | _ => .malformedUrl

/-! ## Content collection walk
(`crawl_github_files.py` lines 169-202 and 242-270)

The directory walk is modelled as a list of encountered regular files.
`statOk` models `os.path.getsize` not raising `OSError` (line 180-183),
`readable` models the UTF-8 read succeeding (lines 196-202); `readLog`
records each file the walk actually opens for reading. -/

structure FsFile where
  relPath : String
  name : String
  statOk : Bool
  size : Nat
  readable : Bool
  content : String
deriving DecidableEq

structure CollectRes where
  files : List (String × String)
  skipped : List (String × Nat)
  readLog : List String
deriving DecidableEq

/-- The per-file body of the collection loop, in source order: stat the
file (skip on `OSError`); skip and record when `file_size > max_file_size`
*before* pattern filtering; then apply `should_include_file`; then open
and read, keeping the file only when the read succeeds. -/
def collectWalk (maxFileSize : Nat) (fn : String → String → Bool)
    (inc exc : List String) : List FsFile → CollectRes
  | [] => ⟨[], [], []⟩
  | f :: rest =>
    let r := collectWalk maxFileSize fn inc exc rest
    if f.statOk then
      if f.size > maxFileSize then
        ⟨r.files, (f.relPath, f.size) :: r.skipped, r.readLog⟩
      else if should_include_file fn inc exc f.relPath f.name then
        if f.readable then
          ⟨(f.relPath, f.content) :: r.files, r.skipped,
            f.relPath :: r.readLog⟩
        else
          ⟨r.files, r.skipped, f.relPath :: r.readLog⟩
      else r
    else r

/-! ## TLS retry behaviour of the git transport
(`_clone_with_git`, `git_operations.py` lines 142-198)

A clone attempt either succeeds, raises a `GitCommandError` whose message
is classified by the source's ordered substring tests (lines 163-195), or
raises some other exception (line 197).  The category of each attempt is
an input; `ssl_retry_attempted` is always `False` when line 164 tests it,
so only `is_github_enterprise` gates the relaxed retry. -/

inductive GitErrCat where
  | sslCert | authFailed | notFound | connRefused | timeout | other
deriving DecidableEq

inductive GitAttempt where
  | ok
  | gitCmdErr (cat : GitErrCat)
  | otherExc
deriving DecidableEq

inductive GitResult where
  /-- cloned; the flag records whether the relaxed-verification retry
  was the attempt that succeeded -/
  | success (sslRelaxedRetry : Bool)
  /-- line 185: "SSL certificate issue..." (not enterprise) -/
  | errSslIssue
  /-- line 183: "Git clone failed even with SSL disabled" -/
  | errSslRetryFailed
  /-- line 187 -/
  | errAuth
  /-- line 189 -/
  | errNotFound
  /-- line 191 -/
  | errConnRefused
  /-- line 193 -/
  | errTimeout
  /-- line 195 -/
  | errCloneFailed
  /-- line 198: non-GitCommandError exception -/
  | errFailedOther
deriving DecidableEq

/-- `_clone_with_git` retry structure: the first attempt's outcome, and on
an enterprise SSL-certificate failure exactly one retry with
`GIT_SSL_NO_VERIFY` whose outcome is `retry`. -/
def clone_with_git (isEnt : Bool) (first retry : GitAttempt) : GitResult :=
  match first with
  | .ok => .success false
  | .otherExc => .errFailedOther
  | .gitCmdErr c =>
    match c with
    | .sslCert =>
      if isEnt then
        match retry with
        | .ok => .success true
        | _ => .errSslRetryFailed
      else .errSslIssue
    | .authFailed => .errAuth
    | .notFound => .errNotFound
    | .connRefused => .errConnRefused
    | .timeout => .errTimeout
    | .other => .errCloneFailed

/-! ## Archive-download GET retry loop
(`_download_with_github_api`, `git_operations.py` lines 262-302)

`for attempt in range(3)` with three caught exception classes.  The
outcome the network returns for the `i`-th GET is `script i`.  The model
tracks every GET issued (attempt index, whether verification was off for
that GET) and every backoff sleep, in order. -/

inductive ApiRes where
  | ok
  /-- `raise_for_status` raises `HTTPError` (not caught in the loop) -/
  | httpErr (status : Nat)
  /-- `SSLError` matching "certificate verify failed"/"self-signed certificate" -/
  | sslCert
  /-- any other `SSLError` (line 288 re-raise) -/
  | sslOther
  /-- `ConnectionError` containing "Connection reset by peer" -/
  | connResetPeer
  /-- any other `ConnectionError` (line 295 re-raise) -/
  | connOther
  /-- `requests.exceptions.Timeout` -/
  | timeout
deriving DecidableEq

inductive GetOut where
  /-- the loop `break`s with a bound `response` -/
  | gotResponse (attemptIdx : Nat) (verifyOff : Bool)
  /-- line 286: "SSL certificate verification failed..." -/
  | errTls
  /-- line 288 re-raise, handled by the outer `ConnectionError` arm -/
  | raiseSsl
  /-- `HTTPError`, handled at lines 365-373 -/
  | raiseHttp (status : Nat)
  /-- lines 295/376-377 -/
  | raiseConnReset
  /-- lines 295/378-379 -/
  | raiseConnOther
  /-- lines 302/381-382 -/
  | raiseTimeout
  /-- the final attempt `continue`d (TLS retry flag set on attempt 2):
  the `for` exhausts and execution falls to line 305 with `response`
  never assigned, so no retry GET and no TLS error ever happen -/
  | fellThrough
deriving DecidableEq

structure LoopRes where
  out : GetOut
  gets : List (Nat × Bool)
  sleeps : List Nat
deriving DecidableEq

/-- One step per remaining loop iteration (`fuel` = iterations left,
`i` = current value of `attempt`; the top-level call has `fuel + i = 3`).
Faithful to lines 268-302: an SSL certificate failure `continue`s with
verification disabled when enterprise and not yet retried (consuming a
loop iteration); connection-reset/timeout `continue` after sleeping
`2^attempt` only when `attempt < max_retries - 1`. -/
def apiLoopGo (isEnt : Bool) (script : Nat → ApiRes) :
    Nat → Nat → Bool → Bool → LoopRes
  | 0, _, _, _ => ⟨.fellThrough, [], []⟩
  | fuel + 1, i, sslRetried, verifyOff =>
    match script i with
    | .ok => ⟨.gotResponse i verifyOff, [(i, verifyOff)], []⟩
    | .httpErr s => ⟨.raiseHttp s, [(i, verifyOff)], []⟩
    | .sslCert =>
      if isEnt && !sslRetried then
        let r := apiLoopGo isEnt script fuel (i + 1) true true
        ⟨r.out, (i, verifyOff) :: r.gets, r.sleeps⟩
      else ⟨.errTls, [(i, verifyOff)], []⟩
    | .sslOther => ⟨.raiseSsl, [(i, verifyOff)], []⟩
    | .connResetPeer =>
      if i < 2 then
        let r := apiLoopGo isEnt script fuel (i + 1) sslRetried verifyOff
        ⟨r.out, (i, verifyOff) :: r.gets, 2 ^ i :: r.sleeps⟩
      else ⟨.raiseConnReset, [(i, verifyOff)], []⟩
    | .connOther => ⟨.raiseConnOther, [(i, verifyOff)], []⟩
    | .timeout =>
      if i < 2 then
        let r := apiLoopGo isEnt script fuel (i + 1) sslRetried verifyOff
        ⟨r.out, (i, verifyOff) :: r.gets, 2 ^ i :: r.sleeps⟩
      else ⟨.raiseTimeout, [(i, verifyOff)], []⟩

/-- The whole `for attempt in range(max_retries)` loop
(`max_retries = 3`, `ssl_retry_attempted = False`, initial verification
setting as configured for the host). -/
def apiRetryLoop (isEnt initVerifyOff : Bool) (script : Nat → ApiRes) :
    LoopRes :=
  apiLoopGo isEnt script 3 0 false initVerifyOff

/-! ## Observable workspace states during archive extraction
(`_download_with_github_api`, `git_operations.py` lines 304-351)

On the success path the target directory passes through an explicit
sequence of filesystem states, one per source operation.  `chunks` is the
number of 8192-byte chunks streamed (line 313-316), `entries` the number
of archive entries `extractall` unpacks (line 326). -/

inductive WsObs where
  /-- target directory exists and is empty (freshly created) -/
  | emptyDir
  /-- `repo.zip` inside the target, `written` of `chunks` chunks on disk -/
  | zipOnly (written chunks : Nat)
  /-- zip complete; `extracted` of `entries` archive entries unpacked
  into the nested top-level directory, inside the target (line 326:
  `zip_ref.extractall(target_dir)`) -/
  | zipAndEntries (extracted entries : Nat)
  /-- zip removed (line 329); nested directory fully present -/
  | nestedOnly
  /-- nested directory moved out to the `_temp` sibling (line 344) -/
  | emptyAfterMove
  /-- `shutil.rmtree(target_dir)` (line 347): target gone -/
  | absent
  /-- `shutil.move(temp_dir, target_dir)` (line 348): final contents -/
  | populated
deriving DecidableEq

/-- The sequence of states of the target workspace directory over the
success path of the archive download, in source order: create, stream the
zip chunk by chunk, extract entry by entry *into the target*, remove the
zip, move the nested directory to the sibling, remove the target, rename
the sibling into place. -/
def downloadObsTrace (chunks entries : Nat) : List WsObs :=
  [WsObs.emptyDir]
    ++ (List.range chunks).map (fun c => WsObs.zipOnly (c + 1) chunks)
    ++ (List.range (entries + 1)).map (fun k => WsObs.zipAndEntries k entries)
    ++ [WsObs.nestedOnly, WsObs.emptyAfterMove, WsObs.absent,
        WsObs.populated]

/-- The claim's observer predicate: the workspace is either fully
populated or removed. -/
def fullyPopulatedOrRemoved (s : WsObs) : Bool :=
  s == WsObs.populated || s == WsObs.absent

/-! ## Workspace existence across an acquisition
(`crawl_github_files` together with `clone_repository`)

For an acquisition whose workspace was implicitly allocated
(`target_dir=None`, so `tempfile.mkdtemp` at line 37 created it under the
system temp root), `crawlAcquireDirAfter` is whether that directory still
exists on disk when `crawl_github_files` returns.  Path by path:
the writability check (lines 50-51) raises with *no* cleanup; every
transport-failure path cleans up (lines 73-74, 92-93, 96-98 — the
`startswith(tempfile.gettempdir())` guard holds for a mkdtemp path) and
the raised error is caught by the crawl (lines 221-223, 289-291); on
transport success the crawl collects and then cleans up (lines 166, 205,
273).  `cleanup_repository` swallows `rmtree` failures (lines 419-424),
modelled by `rmtreeOk`. -/

structure AcqFsEnv where
  /-- `os.access(target_dir, os.W_OK)` at line 50 -/
  writable : Bool
  /-- the recursive delete inside `cleanup_repository` succeeds -/
  rmtreeOk : Bool
deriving DecidableEq

def crawlAcquireDirAfter (u : Url) (env : TransportEnv) (fs : AcqFsEnv) :
    Bool :=
  if !fs.writable then
    true
  else
    let hostname := hostnameOf u
    if isGithubEnterprise hostname then
      match env.apiResult with
      | none => !fs.rmtreeOk
      | some _ =>
        match env.gitResult with
        | none => !fs.rmtreeOk
        | some _ => !fs.rmtreeOk
    else
      match env.gitResult with
      | none => !fs.rmtreeOk
      | some _ =>
        if strHasSub (urlString u) "github.com" then
          match env.apiResult with
          | none => !fs.rmtreeOk
          | some _ => !fs.rmtreeOk
        else !fs.rmtreeOk

/-! ## Theorems -/

/-- C10: in the tree-marker branch of `crawl_github_files`, the ref passed
to the clone is the caller-supplied `branch` whenever it differs from
`"main"`, and the URL-embedded `ref` exactly when `branch = "main"` — so a
caller can never select a branch literally named "main" over a URL ref. -/
theorem C10_clone_branch_selection (branch ref : String) :
    (branch ≠ "main" → clone_branch branch ref = branch) ∧
    (branch = "main" → clone_branch branch ref = ref) := by
  constructor
  · intro h
    simp [clone_branch, h]
  · intro h
    simp [clone_branch, h]

/-- Witness for C10 at concrete inputs. -/
theorem C10_clone_branch_selection_witness :
    clone_branch "dev" "feature/x" = "dev" ∧
    clone_branch "main" "feature/x" = "feature/x" :=
  ⟨(C10_clone_branch_selection "dev" "feature/x").1 (by decide),
   (C10_clone_branch_selection "main" "feature/x").2 rfl⟩

/-- C7: when both pattern sets are non-empty and the file matches an
include pattern (by base name) and an exclude pattern (by path), the file
is excluded — exclude takes precedence over include. -/
theorem C7_exclude_precedence (fn : String → String → Bool)
    (inc exc : List String) (filePath fileName : String)
    (hinc : inc ≠ []) (hexc : exc ≠ [])
    (hmatchInc : inc.any (fun p => fn fileName p) = true)
    (hmatchExc : exc.any (fun p => fn filePath p) = true) :
    should_include_file fn inc exc filePath fileName = false := by
  unfold should_include_file
  simp only [List.isEmpty_iff, hinc, hexc, if_false, hmatchInc, hmatchExc]
  simp [hexc]

/-- Witness for C7: `sub/a.py` matches include `*.py` by name and exclude
`sub/*` by path, so it is excluded. -/
theorem C7_exclude_precedence_witness :
    should_include_file globMatch ["*.py"] ["sub/*"] "sub/a.py" "a.py"
      = false :=
  C7_exclude_precedence globMatch ["*.py"] ["sub/*"] "sub/a.py" "a.py"
    (by decide) (by decide)
    (by simp [globMatch, globMatchChars])
    (by simp [globMatch, globMatchChars])

/-- C1 counterexample: for a non-enterprise, non-`github.com` host whose
URL merely *contains* the substring `"github.com"` (here in the path),
`clone_repository` still attempts the archive fallback and raises the
combined error, not the clone error alone as the claim states. -/
theorem C1_counterexample :
    isGithubEnterprise
        (hostnameOf ⟨"https", "example.com", "/github.com/repo"⟩) = false ∧
    hostnameOf ⟨"https", "example.com", "/github.com/repo"⟩ ≠ "github.com" ∧
    clone_repository ⟨"https", "example.com", "/github.com/repo"⟩
        ⟨some "git down", some "api down"⟩
      ≠ CloneOutcome.errGitOnly "git down" ∧
    clone_repository ⟨"https", "example.com", "/github.com/repo"⟩
        ⟨some "git down", some "api down"⟩
      = CloneOutcome.errBothGitFirst "git down" "api down" := by
  refine ⟨by decide, by decide, by decide, by decide⟩

/-- C1 amended: the combined terminal error is raised only when both
transports have failed; enterprise hosts try the API archive first and
fall back to git clone; non-enterprise hosts try git clone first and fall
back to the archive exactly when the URL string contains `"github.com"`
as a substring (not only when the host is `github.com`), and otherwise
the clone error alone is raised. -/
theorem C1_amended_fallback_routing (u : Url) (env : TransportEnv) :
    (∀ a g,
      (clone_repository u env = CloneOutcome.errBothApiFirst a g ∨
       clone_repository u env = CloneOutcome.errBothGitFirst g a) →
      env.gitResult = some g ∧ env.apiResult = some a) ∧
    (env.gitResult = none → clone_repository u env = CloneOutcome.success) ∧
    (isGithubEnterprise (hostnameOf u) = true →
      ∀ a g, env.apiResult = some a → env.gitResult = some g →
        clone_repository u env = CloneOutcome.errBothApiFirst a g) ∧
    (isGithubEnterprise (hostnameOf u) = false →
      strHasSub (urlString u) "github.com" = true →
      ∀ a g, env.gitResult = some g → env.apiResult = some a →
        clone_repository u env = CloneOutcome.errBothGitFirst g a) ∧
    (isGithubEnterprise (hostnameOf u) = false →
      strHasSub (urlString u) "github.com" = false →
      ∀ g, env.gitResult = some g →
        clone_repository u env = CloneOutcome.errGitOnly g) := by
  obtain ⟨g?, a?⟩ := env
  by_cases hE : isGithubEnterprise (hostnameOf u) = true <;>
    by_cases hS : strHasSub (urlString u) "github.com" = true <;>
      cases g? <;> cases a? <;>
        simp_all [clone_repository]

/-- Witness for C1 amended: an enterprise host with both transports
failing yields the combined error with the API error first. -/
theorem C1_amended_fallback_routing_witness :
    clone_repository ⟨"https", "github.example.com", "/o/r"⟩
        ⟨some "g", some "a"⟩
      = CloneOutcome.errBothApiFirst "a" "g" :=
  (C1_amended_fallback_routing ⟨"https", "github.example.com", "/o/r"⟩
      ⟨some "g", some "a"⟩).2.2.1 (by decide) "a" "g" rfl rfl

/-- C2 counterexample: with a `tree`-marker URL and an empty fetched
branch list, resolution aborts immediately (`return` at line 119) and
never reaches the tree-object existence check — even though the tree
check would have succeeded, as the non-empty-branch-list run shows. -/
theorem C2_counterexample :
    resolveTreeUrl ["o", "r", "tree", "abc123", "sub"] []
        (fun t => t == "abc123")
      = ResolveOutcome.abortBranchListEmpty ∧
    resolveTreeUrl ["o", "r", "tree", "abc123", "sub"] []
        (fun t => t == "abc123")
      ≠ ResolveOutcome.resolved "abc123" "sub" ∧
    resolveTreeUrl ["o", "r", "tree", "abc123", "sub"] ["other"]
        (fun t => t == "abc123")
      = ResolveOutcome.resolved "abc123" "sub" := by
  refine ⟨by decide, by decide, by decide⟩

/-- C2 amended: an empty branch list is fatal to resolution — the crawl
returns immediately with no result, without consulting the tree-object
existence check (the outcome does not depend on `treeExists`). -/
theorem C2_amended_empty_branch_list_fatal (p0 p1 : String)
    (rest : List String) (treeExists : String → Bool) :
    resolveTreeUrl (p0 :: p1 :: "tree" :: rest) [] treeExists
      = ResolveOutcome.abortBranchListEmpty := by
  rfl

/-- Helper: when `find?` locates a branch-name prefix of the remainder
path, resolution returns it with the stripped remainder as subpath. -/
theorem resolveTreeUrl_found (p0 p1 : String) (rest branches : List String)
    (treeExists : String → Bool) (ref : String)
    (h : branches.find? (fun name => strStarts (joinSlash rest) name)
          = some ref) :
    resolveTreeUrl (p0 :: p1 :: "tree" :: rest) branches treeExists
      = ResolveOutcome.resolved ref (subdirOf (joinSlash rest) ref) := by
  cases branches with
  | nil => simp at h
  | cons b bs =>
    unfold resolveTreeUrl
    simp only [List.length_cons, Nat.beq_eq_true_eq, Nat.succ_ne_zero,
      if_false, h]

/-- C8 counterexample: for the URL remainder `feature/x/sub/dir`, a branch
list containing `"feature/x"` does not guarantee `ref = "feature/x"`: if
an earlier name (`"feature"`) is also a string prefix of the remainder,
the first match wins and the subpath becomes `"x/sub/dir"`. -/
theorem C8_counterexample :
    "feature/x" ∈ (["feature", "feature/x"] : List String) ∧
    resolveTreeUrl ["owner", "repo", "tree", "feature", "x", "sub", "dir"]
        ["feature", "feature/x"] (fun _ => false)
      = ResolveOutcome.resolved "feature" "x/sub/dir" ∧
    resolveTreeUrl ["owner", "repo", "tree", "feature", "x", "sub", "dir"]
        ["feature", "feature/x"] (fun _ => false)
      ≠ ResolveOutcome.resolved "feature/x" "sub/dir" := by
  refine ⟨by decide, by decide, by decide⟩

/-- C8 amended: the resolver selects the *first* branch name in
API-returned order that is a string prefix of the remainder path; when
`"feature/x"` is that first match for `.../owner/repo/tree/feature/x/sub/dir`,
it returns `ref = "feature/x"` and `subpath = "sub/dir"` (leading path
separators stripped). -/
theorem C8_amended_first_prefix_branch (branches : List String)
    (treeExists : String → Bool)
    (h : branches.find? (fun name => strStarts "feature/x/sub/dir" name)
          = some "feature/x") :
    resolveTreeUrl ["owner", "repo", "tree", "feature", "x", "sub", "dir"]
        branches treeExists
      = ResolveOutcome.resolved "feature/x" "sub/dir" := by
  have hj : joinSlash ["feature", "x", "sub", "dir"] = "feature/x/sub/dir" := by
    decide
  have := resolveTreeUrl_found "owner" "repo" ["feature", "x", "sub", "dir"]
    branches treeExists "feature/x" (by rw [hj]; exact h)
  rw [this, hj]
  decide

/-- Witness for C8 amended: with branch list `["main", "feature/x"]` the
first prefix match is `"feature/x"`. -/
theorem C8_amended_first_prefix_branch_witness :
    resolveTreeUrl ["owner", "repo", "tree", "feature", "x", "sub", "dir"]
        ["main", "feature/x"] (fun _ => false)
      = ResolveOutcome.resolved "feature/x" "sub/dir" :=
  C8_amended_first_prefix_branch ["main", "feature/x"] (fun _ => false)
    (by decide)

/-- Every path in the collected file list came from the walked files. -/
theorem collectWalk_files_paths (maxFileSize : Nat)
    (fn : String → String → Bool) (inc exc : List String) :
    ∀ (fs : List FsFile) (p : String),
      p ∈ (collectWalk maxFileSize fn inc exc fs).files.map Prod.fst →
      p ∈ fs.map FsFile.relPath := by
  intro fs
  induction fs with
  | nil => intro p h; simp [collectWalk] at h
  | cons g rest ih =>
    intro p h
    simp only [collectWalk] at h
    by_cases hst : g.statOk = true <;>
      by_cases hsz : g.size > maxFileSize <;>
        by_cases hin : should_include_file fn inc exc g.relPath g.name = true <;>
          by_cases hrd : g.readable = true <;>
            simp_all [List.map_cons, List.mem_cons] <;>
              tauto

/-- Every path in the read log came from the walked files. -/
theorem collectWalk_readLog_paths (maxFileSize : Nat)
    (fn : String → String → Bool) (inc exc : List String) :
    ∀ (fs : List FsFile) (p : String),
      p ∈ (collectWalk maxFileSize fn inc exc fs).readLog →
      p ∈ fs.map FsFile.relPath := by
  intro fs
  induction fs with
  | nil => intro p h; simp [collectWalk] at h
  | cons g rest ih =>
    intro p h
    simp only [collectWalk] at h
    by_cases hst : g.statOk = true <;>
      by_cases hsz : g.size > maxFileSize <;>
        by_cases hin : should_include_file fn inc exc g.relPath g.name = true <;>
          by_cases hrd : g.readable = true <;>
            simp_all [List.map_cons, List.mem_cons] <;>
              tauto

/-- C6: any walked file whose size exceeds `maxFileSize` never appears in
the returned files (under any pattern configuration), is never opened for
reading, and its `(relative path, size)` pair is recorded in the skipped
list — the size check precedes pattern filtering. -/
theorem C6_size_ceiling_dominates (maxFileSize : Nat)
    (fn : String → String → Bool) (inc exc : List String)
    (fs : List FsFile) (f : FsFile)
    (hmem : f ∈ fs) (hnd : (fs.map FsFile.relPath).Nodup)
    (hstat : f.statOk = true) (hsize : f.size > maxFileSize) :
    f.relPath ∉ (collectWalk maxFileSize fn inc exc fs).files.map Prod.fst ∧
    (f.relPath, f.size) ∈ (collectWalk maxFileSize fn inc exc fs).skipped ∧
    f.relPath ∉ (collectWalk maxFileSize fn inc exc fs).readLog := by
  induction fs with
  | nil => simp at hmem
  | cons g rest ih =>
    rw [List.map_cons, List.nodup_cons] at hnd
    obtain ⟨hghd, hndr⟩ := hnd
    rcases List.mem_cons.mp hmem with hfg | hfr
    · subst hfg
      simp only [collectWalk, hstat, if_true, if_pos hsize]
      refine ⟨?_, by simp, ?_⟩
      · intro hc
        exact hghd (collectWalk_files_paths maxFileSize fn inc exc rest _ hc)
      · intro hc
        exact hghd (collectWalk_readLog_paths maxFileSize fn inc exc rest _ hc)
    · have hne : f.relPath ≠ g.relPath := by
        intro he
        exact hghd (he ▸ List.mem_map.mpr ⟨f, hfr, rfl⟩)
      obtain ⟨ih1, ih2, ih3⟩ := ih hfr hndr
      simp only [collectWalk]
      by_cases hst : g.statOk = true
      · rw [if_pos hst]
        by_cases hsz : maxFileSize < g.size
        · rw [if_pos hsz]
          exact ⟨ih1, List.mem_cons_of_mem _ ih2, ih3⟩
        · rw [if_neg hsz]
          by_cases hin : should_include_file fn inc exc g.relPath g.name = true
          · rw [if_pos hin]
            by_cases hrd : g.readable = true
            · rw [if_pos hrd]
              refine ⟨?_, ih2, ?_⟩
              · simp only [List.map_cons, List.mem_cons]
                rintro (h | h)
                · exact hne h
                · exact ih1 h
              · simp only [List.mem_cons]
                rintro (h | h)
                · exact hne h
                · exact ih3 h
            · rw [if_neg hrd]
              refine ⟨ih1, ih2, ?_⟩
              simp only [List.mem_cons]
              rintro (h | h)
              · exact hne h
              · exact ih3 h
          · rw [if_neg hin]
            exact ⟨ih1, ih2, ih3⟩
      · rw [if_neg hst]
        exact ⟨ih1, ih2, ih3⟩

/-- Witness for C6: a 2,000,000-byte file against a 1,000,000-byte limit
is skipped with its size recorded, not read, and not returned. -/
theorem C6_size_ceiling_dominates_witness :
    "big.bin" ∉
      (collectWalk 1000000 globMatch [] []
        [⟨"big.bin", "big.bin", true, 2000000, true, "xx"⟩,
         ⟨"a.py", "a.py", true, 100, true, "ok"⟩]).files.map Prod.fst ∧
    ("big.bin", 2000000) ∈
      (collectWalk 1000000 globMatch [] []
        [⟨"big.bin", "big.bin", true, 2000000, true, "xx"⟩,
         ⟨"a.py", "a.py", true, 100, true, "ok"⟩]).skipped ∧
    "big.bin" ∉
      (collectWalk 1000000 globMatch [] []
        [⟨"big.bin", "big.bin", true, 2000000, true, "xx"⟩,
         ⟨"a.py", "a.py", true, 100, true, "ok"⟩]).readLog :=
  C6_size_ceiling_dominates 1000000 globMatch [] []
    [⟨"big.bin", "big.bin", true, 2000000, true, "xx"⟩,
     ⟨"a.py", "a.py", true, 100, true, "ok"⟩]
    ⟨"big.bin", "big.bin", true, 2000000, true, "xx"⟩
    (by decide) (by decide) rfl (by decide)

/-- Invariants of the GET retry loop, for states reachable from the top
(`fuel + i = 3`): at most `fuel` further GETs; the sleeps are exactly the
`2^attempt` backoffs of the reset/timeout GETs on non-final attempts, in
order; and the loop can only fall through (ending with `response`
unbound) after an enterprise TLS-certificate failure on its last GET. -/
theorem apiLoopGo_bounds (isEnt : Bool) (script : Nat → ApiRes) :
    ∀ (fuel : Nat), ∀ (i : Nat) (retried v : Bool), fuel + i = 3 →
      (apiLoopGo isEnt script fuel i retried v).gets.length ≤ fuel ∧
      (apiLoopGo isEnt script fuel i retried v).sleeps =
        (apiLoopGo isEnt script fuel i retried v).gets.filterMap
          (fun g =>
            if (script g.1 = ApiRes.connResetPeer ∨
                script g.1 = ApiRes.timeout) ∧ g.1 < 2
            then some (2 ^ g.1) else none) ∧
      ((apiLoopGo isEnt script fuel i retried v).out = GetOut.fellThrough →
        (fuel = 0 ∧ (apiLoopGo isEnt script fuel i retried v).gets = []) ∨
        (isEnt = true ∧ ∃ j v',
          (apiLoopGo isEnt script fuel i retried v).gets.getLast?
            = some (j, v') ∧ script j = ApiRes.sslCert)) := by
  intro fuel
  induction fuel with
  | zero => intro i r v h; simp [apiLoopGo]
  | succ fuel ih =>
    intro i retried v h
    cases hs : script i with
    | ok => simp [apiLoopGo, hs]
    | httpErr s => simp [apiLoopGo, hs]
    | sslOther => simp [apiLoopGo, hs]
    | connOther => simp [apiLoopGo, hs]
    | sslCert =>
      by_cases hg : (isEnt && !retried) = true
      · have hE : isEnt = true := by
          revert hg; cases isEnt <;> simp
        obtain ⟨ih1, ih2, ih3⟩ := ih (i + 1) true true (by omega)
        simp only [apiLoopGo, hs, hg, if_true]
        refine ⟨by simpa using Nat.succ_le_succ ih1, ?_, ?_⟩
        · rw [List.filterMap_cons]
          simp only [hs]
          exact ih2
        · intro hft
          rcases ih3 hft with ⟨_, hnil⟩ | ⟨_, j, v', hlast, hj⟩
          · right
            refine ⟨hE, i, v, ?_, hs⟩
            rw [hnil]
            rfl
          · right
            refine ⟨hE, j, v', ?_, hj⟩
            rcases he : (apiLoopGo isEnt script fuel (i + 1) true true).gets with
              _ | ⟨p, l⟩
            · simp [he] at hlast
            · rw [he] at hlast
              rw [List.getLast?_cons_cons]
              exact hlast
      · simp [apiLoopGo, hs, hg]
    | connResetPeer =>
      by_cases hi : i < 2
      · obtain ⟨ih1, ih2, ih3⟩ := ih (i + 1) retried v (by omega)
        simp only [apiLoopGo, hs, hi, if_true]
        refine ⟨by simpa using Nat.succ_le_succ ih1, ?_, ?_⟩
        · simp [List.filterMap_cons, hs, hi, ih2]
        · intro hft
          rcases ih3 hft with ⟨hf0, _⟩ | ⟨hE, j, v', hlast, hj⟩
          · omega
          · right
            refine ⟨hE, j, v', ?_, hj⟩
            rcases he : (apiLoopGo isEnt script fuel (i + 1) retried v).gets with
              _ | ⟨p, l⟩
            · simp [he] at hlast
            · rw [he] at hlast
              rw [List.getLast?_cons_cons]
              exact hlast
      · simp [apiLoopGo, hs, hi]
    | timeout =>
      by_cases hi : i < 2
      · obtain ⟨ih1, ih2, ih3⟩ := ih (i + 1) retried v (by omega)
        simp only [apiLoopGo, hs, hi, if_true]
        refine ⟨by simpa using Nat.succ_le_succ ih1, ?_, ?_⟩
        · simp [List.filterMap_cons, hs, hi, ih2]
        · intro hft
          rcases ih3 hft with ⟨hf0, _⟩ | ⟨hE, j, v', hlast, hj⟩
          · omega
          · right
            refine ⟨hE, j, v', ?_, hj⟩
            rcases he : (apiLoopGo isEnt script fuel (i + 1) retried v).gets with
              _ | ⟨p, l⟩
            · simp [he] at hlast
            · rw [he] at hlast
              rw [List.getLast?_cons_cons]
              exact hlast
      · simp [apiLoopGo, hs, hi]

/-- C5 counterexample: on an enterprise host with verification on and no
prior relaxed retry, a TLS-certificate failure on the *final* loop attempt
(after two timeouts) triggers no retry at all: the `continue` exhausts the
loop, every GET ran with verification on, and no TLS error is raised —
the call falls through with `response` unbound. -/
theorem C5_counterexample :
    (apiRetryLoop true false
        (fun i => if i < 2 then ApiRes.timeout else ApiRes.sslCert)).out
      = GetOut.fellThrough ∧
    (apiRetryLoop true false
        (fun i => if i < 2 then ApiRes.timeout else ApiRes.sslCert)).out
      ≠ GetOut.errTls ∧
    (apiRetryLoop true false
        (fun i => if i < 2 then ApiRes.timeout else ApiRes.sslCert)).gets
      = [(0, false), (1, false), (2, false)] := by
  refine ⟨by decide, by decide, by decide⟩

/-- C5 amended: a TLS certificate-verification failure with no prior
relaxed retry triggers exactly one automatic retry with verification
disabled — for the git transport always, and for the archive loop
whenever at least one attempt remains; if that retry succeeds no error
surfaces, and a TLS failure when the host is not enterprise or when a
relaxed retry already occurred raises the TLS-verification error.  (On
the archive loop's final attempt the failure instead exhausts the loop
with no retry, per the counterexample.) -/
theorem C5_amended_tls_retry :
    (clone_with_git true (.gitCmdErr .sslCert) .ok = .success true) ∧
    (∀ retry, retry ≠ GitAttempt.ok →
      clone_with_git true (.gitCmdErr .sslCert) retry
        = .errSslRetryFailed) ∧
    (∀ retry, clone_with_git false (.gitCmdErr .sslCert) retry
        = .errSslIssue) ∧
    (∀ (script : Nat → ApiRes) (v : Bool) (i : Nat), i < 2 →
      script i = ApiRes.sslCert →
      (script (i + 1) = ApiRes.ok →
        apiLoopGo true script (3 - i) i false v
          = ⟨.gotResponse (i + 1) true, [(i, v), (i + 1, true)], []⟩) ∧
      (script (i + 1) = ApiRes.sslCert →
        apiLoopGo true script (3 - i) i false v
          = ⟨.errTls, [(i, v), (i + 1, true)], []⟩)) ∧
    (∀ (script : Nat → ApiRes) (v : Bool) (i : Nat), i < 3 →
      script i = ApiRes.sslCert →
      apiLoopGo false script (3 - i) i false v
        = ⟨.errTls, [(i, v)], []⟩) ∧
    (∀ (script : Nat → ApiRes) (v : Bool) (i : Nat), i < 3 →
      script i = ApiRes.sslCert →
      apiLoopGo true script (3 - i) i true v
        = ⟨.errTls, [(i, v)], []⟩) := by
  refine ⟨rfl, ?_, ?_, ?_, ?_, ?_⟩
  · intro retry h
    cases retry with
    | ok => exact absurd rfl h
    | gitCmdErr c => rfl
    | otherExc => rfl
  · intro retry
    cases retry <;> rfl
  · intro script v i hi hs
    interval_cases i <;>
      exact ⟨fun h1 => by simp [apiLoopGo, hs, h1],
             fun h1 => by simp [apiLoopGo, hs, h1]⟩
  · intro script v i hi hs
    interval_cases i <;> simp [apiLoopGo, hs]
  · intro script v i hi hs
    interval_cases i <;> simp [apiLoopGo, hs]

/-- Witness for C5 amended: a first-attempt enterprise TLS failure whose
relaxed-verification retry succeeds (git and archive transports). -/
theorem C5_amended_tls_retry_witness :
    clone_with_git true (.gitCmdErr .sslCert) .ok = .success true ∧
    apiLoopGo true (fun n => if n = 0 then ApiRes.sslCert else ApiRes.ok)
        3 0 false false
      = ⟨.gotResponse 1 true, [(0, false), (1, true)], []⟩ :=
  ⟨C5_amended_tls_retry.1,
   (C5_amended_tls_retry.2.2.2.1
      (fun n => if n = 0 then ApiRes.sslCert else ApiRes.ok) false 0
      (by decide) (by decide)).1 (by decide)⟩

/-- C9 counterexample: the GET retry loop can terminate neither by a
successful response nor by propagating the last attempt's error: after
two connection resets (with backoff sleeps 1 and 2) an enterprise
TLS-certificate failure on the final attempt `continue`s, exhausting the
loop — no TLS error and no re-raise, `response` is left unbound. -/
theorem C9_counterexample :
    (apiRetryLoop true false
        (fun i => if i < 2 then ApiRes.connResetPeer else ApiRes.sslCert)).out
      = GetOut.fellThrough ∧
    (apiRetryLoop true false
        (fun i => if i < 2 then ApiRes.connResetPeer else ApiRes.sslCert)).out
      ≠ GetOut.errTls ∧
    (apiRetryLoop true false
        (fun i => if i < 2 then ApiRes.connResetPeer else ApiRes.sslCert)).out
      ≠ GetOut.raiseSsl ∧
    (apiRetryLoop true false
        (fun i => if i < 2 then ApiRes.connResetPeer else ApiRes.sslCert)).sleeps
      = [1, 2] := by
  refine ⟨by decide, by decide, by decide, by decide⟩

/-- C9 amended: a single archive-download call makes at most 3 HTTP GET
attempts; each reset/timeout on a non-final attempt is followed by a
`2^attempt`-second sleep (the sleeps are exactly those backoffs, in
order); and the loop always terminates — by a successful response, by
propagating an error, or (only after an enterprise TLS-certificate
failure on its final GET) by exhausting the loop with no response. -/
theorem C9_amended_retry_loop (isEnt v : Bool) (script : Nat → ApiRes) :
    (apiRetryLoop isEnt v script).gets.length ≤ 3 ∧
    (apiRetryLoop isEnt v script).sleeps =
      (apiRetryLoop isEnt v script).gets.filterMap (fun g =>
        if (script g.1 = ApiRes.connResetPeer ∨ script g.1 = ApiRes.timeout)
            ∧ g.1 < 2 then some (2 ^ g.1) else none) ∧
    ((apiRetryLoop isEnt v script).out = GetOut.fellThrough →
      isEnt = true ∧ ∃ j v',
        (apiRetryLoop isEnt v script).gets.getLast? = some (j, v') ∧
        script j = ApiRes.sslCert) := by
  obtain ⟨h1, h2, h3⟩ := apiLoopGo_bounds isEnt script 3 0 false v (by norm_num)
  refine ⟨h1, h2, ?_⟩
  intro hft
  rcases h3 hft with ⟨h30, _⟩ | hr
  · exact absurd h30 (by norm_num)
  · exact hr

/-- Witness for C9 amended: reset then timeout then TLS failure — three
GETs, sleeps `[1, 2]`, and the fall-through's last GET was the TLS one. -/
theorem C9_amended_retry_loop_witness :
    (apiRetryLoop true false
        (fun i => if i = 0 then ApiRes.connResetPeer
                  else if i = 1 then ApiRes.timeout
                  else ApiRes.sslCert)).gets.length ≤ 3 ∧
    (apiRetryLoop true false
        (fun i => if i = 0 then ApiRes.connResetPeer
                  else if i = 1 then ApiRes.timeout
                  else ApiRes.sslCert)).sleeps = [1, 2] ∧
    (true = true ∧ ∃ j v',
      (apiRetryLoop true false
          (fun i => if i = 0 then ApiRes.connResetPeer
                    else if i = 1 then ApiRes.timeout
                    else ApiRes.sslCert)).gets.getLast? = some (j, v') ∧
      (fun i => if i = 0 then ApiRes.connResetPeer
                else if i = 1 then ApiRes.timeout
                else ApiRes.sslCert) j = ApiRes.sslCert) := by
  obtain ⟨h1, h2, h3⟩ := C9_amended_retry_loop true false
    (fun i => if i = 0 then ApiRes.connResetPeer
              else if i = 1 then ApiRes.timeout
              else ApiRes.sslCert)
  refine ⟨h1, ?_, h3 (by decide)⟩
  rw [h2]
  decide

/-- C3 counterexample: during an archive download of a two-entry archive,
an observer of the target workspace sees a state with the zip present and
only one of two entries extracted — extraction happens *inside* the
target directory (line 326), not in a sibling, so the workspace is
neither fully populated nor removed at that point. -/
theorem C3_counterexample :
    WsObs.zipAndEntries 1 2 ∈ downloadObsTrace 1 2 ∧
    fullyPopulatedOrRemoved (WsObs.zipAndEntries 1 2) = false := by
  refine ⟨by decide, by decide⟩

/-- C3 amended: the archive is streamed to and extracted inside the
target workspace itself, so intermediate states (zip file, partially
extracted nested directory) are observable there; only after full
extraction is the nested directory moved to the `_temp` sibling and the
workspace replaced by remove-then-rename, ending fully populated. -/
theorem C3_amended_in_place_extraction (chunks entries : Nat) :
    (∃ l, downloadObsTrace chunks entries
      = l ++ [WsObs.nestedOnly, WsObs.emptyAfterMove, WsObs.absent,
              WsObs.populated]) ∧
    (downloadObsTrace chunks entries).getLast? = some WsObs.populated ∧
    WsObs.zipAndEntries 0 entries ∈ downloadObsTrace chunks entries ∧
    fullyPopulatedOrRemoved (WsObs.zipAndEntries 0 entries) = false := by
  refine ⟨?_, ?_, ?_, ?_⟩
  · exact ⟨[WsObs.emptyDir]
      ++ (List.range chunks).map (fun c => WsObs.zipOnly (c + 1) chunks)
      ++ (List.range (entries + 1)).map
            (fun k => WsObs.zipAndEntries k entries),
     by simp [downloadObsTrace]⟩
  · rw [show downloadObsTrace chunks entries
        = ([WsObs.emptyDir]
            ++ (List.range chunks).map (fun c => WsObs.zipOnly (c + 1) chunks)
            ++ (List.range (entries + 1)).map
                  (fun k => WsObs.zipAndEntries k entries)
            ++ [WsObs.nestedOnly, WsObs.emptyAfterMove, WsObs.absent])
          ++ [WsObs.populated] by simp [downloadObsTrace]]
    rw [List.getLast?_concat]
  · simp only [downloadObsTrace, List.mem_append, List.mem_map,
      List.mem_range, List.mem_singleton]
    left
    right
    exact ⟨0, by omega, rfl⟩
  · rfl

/-- C4 counterexample: when the freshly `mkdtemp`-allocated workspace
fails the writability verification (line 50), `clone_repository` raises
without any cleanup, the crawl catches the error and returns — and the
workspace directory still exists on disk, unlike every other path under
the same transport outcomes. -/
theorem C4_counterexample :
    crawlAcquireDirAfter ⟨"https", "github.com", "/o/r"⟩
        ⟨some "git down", some "api down"⟩ ⟨false, true⟩ = true ∧
    crawlAcquireDirAfter ⟨"https", "github.com", "/o/r"⟩
        ⟨some "git down", some "api down"⟩ ⟨true, true⟩ = false := by
  refine ⟨by decide, by decide⟩

/-- C4 amended: whenever the implicitly allocated workspace passes the
writability verification and the recursive delete succeeds, the directory
no longer exists on disk when the acquisition returns — on success and on
every transport-failure path alike.  (The writability-check failure path
raises without cleanup, and a failed delete is swallowed, leaving the
directory behind.) -/
theorem C4_amended_workspace_removed (u : Url) (env : TransportEnv)
    (fs : AcqFsEnv) (hw : fs.writable = true) (hr : fs.rmtreeOk = true) :
    crawlAcquireDirAfter u env fs = false := by
  obtain ⟨g?, a?⟩ := env
  by_cases hE : isGithubEnterprise (hostnameOf u) = true <;>
    by_cases hS : strHasSub (urlString u) "github.com" = true <;>
      cases g? <;> cases a? <;>
        simp_all [crawlAcquireDirAfter]

/-- Witness for C4 amended at a concrete successful acquisition. -/
theorem C4_amended_workspace_removed_witness :
    crawlAcquireDirAfter ⟨"https", "github.com", "/octocat/Hello-World"⟩
        ⟨none, none⟩ ⟨true, true⟩ = false :=
  C4_amended_workspace_removed ⟨"https", "github.com", "/octocat/Hello-World"⟩
    ⟨none, none⟩ ⟨true, true⟩ rfl rfl

end DocuGen
